import Mathlib

/-
  Verification development for the kasir-api repository: a layered CRUD
  REST service over Products and Categories (request layer -> business
  layer -> persistence layer -> SQL store).  The definitions below are a
  shallow embedding of the canonical variant of the source (the layered,
  envelope-based implementation wired up by cmd/api/main.go), with the
  external SQL store modelled as an explicit state (lists of rows plus
  identifier counters), and a possible transport fault modelled as an
  optional error string carried by the store state.
-/

namespace KasirAPI

/-! ## Strings and integer parsing (model of Go strconv.Atoi) -/

/-- ASCII decimal digit test, as used by Go integer parsing. -/
def isDig (c : Char) : Bool :=
  48 ≤ c.toNat && c.toNat ≤ 57

/-- Value of a list of decimal digits, most significant first. -/
def digitsVal (ds : List Char) : Nat :=
  ds.foldl (fun a c => a * 10 + (c.toNat - 48)) 0

/-- Split an optional leading sign from a character list; the Bool is
true when the sign is a minus. -/
def splitSign : List Char → Bool × List Char
  | '+' :: rest => (false, rest)
  | '-' :: rest => (true, rest)
  | cs => (false, cs)

/-- Smallest value of a 64-bit signed integer (Go int on the target). -/
def int64Min : Int := -9223372036854775808

/-- Largest value of a 64-bit signed integer (Go int on the target). -/
def int64Max : Int := 9223372036854775807

/-- The signed value denoted by a sign flag and a digit list. -/
def signedVal (p : Bool × List Char) : Int :=
  if p.1 then -(digitsVal p.2 : Int) else (digitsVal p.2 : Int)

/-- Model of Go strconv.Atoi on a 64-bit platform: an optional sign
followed by one or more ASCII decimal digits, failing on any other
shape and on values outside the signed 64-bit range. -/
def atoi (s : String) : Option Int :=
  if (splitSign s.data).2 = [] ∨ ¬ (splitSign s.data).2.all isDig then none
  else if signedVal (splitSign s.data) < int64Min ∨
          int64Max < signedVal (splitSign s.data) then none
  else some (signedVal (splitSign s.data))

/-- Drop a leading pattern from a character list; none when the pattern
is not a lead of the list. -/
def listDropPre : List Char → List Char → Option (List Char)
  | [], rest => some rest
  | _ :: _, [] => none
  | p :: ps, c :: cs => if p = c then listDropPre ps cs else none

/-- Model of Go strings.TrimPrefix: remove the leading pattern when
present, otherwise return the string unchanged. -/
def trimPre (s pat : String) : String :=
  match listDropPre pat.data s.data with
  | some rest => String.mk rest
  | none => s

/-- Whether pat is a lead of s (the ServeMux subtree-pattern test). -/
def hasPre (s pat : String) : Bool :=
  (listDropPre pat.data s.data).isSome

/-- parseIDFromPath from the handler package: trim the route pattern off
the URL path and parse the remainder with strconv.Atoi. -/
def parseIDFromPath (path pat : String) : Option Int :=
  atoi (trimPre path pat)

/-! ## Data model (internal/domain) -/

/-- domain.Category: id, name, description. -/
structure Category where
  id : Int
  name : String
  description : String
  deriving DecidableEq

/-- domain.Product: scalar columns plus the optional embedded Category
snapshot (populated only on read, never persisted). -/
structure Product where
  id : Int
  name : String
  price : Int
  stock : Int
  categoryId : Int
  category : Option Category
  deriving DecidableEq

/-- A persisted row of the products table (the snapshot column set:
what INSERT/UPDATE statements actually write). -/
structure ProductRow where
  id : Int
  name : String
  price : Int
  stock : Int
  categoryId : Int
  deriving DecidableEq

/-- Error taxonomy.  notFound is apperrors.ErrNotFound from the source.
categoryNotFound models apperrors.ErrCategoryNotFound, which the
services and handlers under src reference but whose declaration
(internal/apperrors) is not among the provided sources; the spec's
taxonomy lists CategoryNotFound as a distinct sentinel condition.
dbError carries a raw transport or constraint error message. -/
inductive AppError where
  | notFound
  | categoryNotFound
  | dbError (msg : String)
  deriving DecidableEq

/-- A Go slice: either the nil slice or a (possibly empty) list of
elements.  The distinction matters because the repositories return
make(..., 0) rather than nil, and JSON encodes nil as null. -/
inductive GoSlice (α : Type) where
  | nil : GoSlice α
  | mk : List α → GoSlice α
  deriving DecidableEq

/-- The underlying list of a Go slice (nil and empty both give []). -/
def GoSlice.toList {α : Type} : GoSlice α → List α
  | .nil => []
  | .mk l => l

/-- The external SQL store: both tables, the sequences backing the
store-assigned identifiers, and an optional transport fault (when set,
every round-trip to the store fails with that raw error). -/
structure Store where
  categories : List Category
  products : List ProductRow
  nextCategoryId : Int
  nextProductId : Int
  fault : Option String
  deriving DecidableEq

/-- SELECT ... FROM categories WHERE id = $1 (first matching row). -/
def lookupCategory (db : Store) (id : Int) : Option Category :=
  db.categories.find? (fun c => c.id == id)

/-- Well-formed store: sequences are positive and strictly above every
stored identifier (the invariant a SERIAL column maintains). -/
def Store.WF (db : Store) : Prop :=
  0 < db.nextCategoryId ∧ 0 < db.nextProductId ∧
  (∀ c ∈ db.categories, c.id < db.nextCategoryId) ∧
  (∀ r ∈ db.products, r.id < db.nextProductId)

/-- Raw constraint-violation message raised by the store when an INSERT
or UPDATE writes a category_id referencing no category. -/
def fkViolationMsg : String := "foreign key violation"

/-- Raw constraint-violation message raised by the store when a DELETE
removes a category still referenced by products (the schema declares
REFERENCES with no cascade, so the store restricts the delete). -/
def fkRestrictMsg : String := "update or delete violates foreign key constraint"

/-! ## Persistence layer (internal/repository) -/

namespace CategoryRepository

/-- SELECT id, name, description FROM categories; the result slice is
built from make(..., 0) and is therefore never the nil slice. -/
def GetAll (db : Store) : Except AppError (GoSlice Category) :=
  match db.fault with
  | some s => .error (.dbError s)
  | none => .ok (.mk db.categories)

/-- INSERT INTO categories ... RETURNING id: assigns the next sequence
value onto the passed entity and appends the row. -/
def Create (db : Store) (c : Category) : Option AppError × Store × Category :=
  match db.fault with
  | some s => (some (.dbError s), db, c)
  | none =>
    let assigned := { c with id := db.nextCategoryId }
    (none,
     { db with categories := db.categories ++ [assigned],
               nextCategoryId := db.nextCategoryId + 1 },
     assigned)

/-- SELECT ... WHERE id = $1: ErrNotFound exactly on sql.ErrNoRows. -/
def GetByID (db : Store) (id : Int) : Except AppError Category :=
  match db.fault with
  | some s => .error (.dbError s)
  | none =>
    match lookupCategory db id with
    | none => .error .notFound
    | some c => .ok c

/-- UPDATE categories SET name, description WHERE id: ErrNotFound
exactly when zero rows are affected. -/
def Update (db : Store) (c : Category) : Option AppError × Store :=
  match db.fault with
  | some s => (some (.dbError s), db)
  | none =>
    let rowsAffected := db.categories.countP (fun r => r.id == c.id)
    if rowsAffected = 0 then (some .notFound, db)
    else
      (none,
       { db with categories := db.categories.map (fun r =>
           if r.id == c.id then
             { r with name := c.name, description := c.description }
           else r) })

/-- DELETE FROM categories WHERE id: when no row matches, zero rows are
affected and Exec succeeds, so ErrNotFound is returned; when a matching
row is still referenced by products the store rejects the statement
with its foreign-key restrict error (the schema declares REFERENCES
with no cascade), which Exec surfaces and the code returns raw;
otherwise the row is removed. -/
def Delete (db : Store) (id : Int) : Option AppError × Store :=
  match db.fault with
  | some s => (some (.dbError s), db)
  | none =>
    let rowsAffected := db.categories.countP (fun r => r.id == id)
    if rowsAffected = 0 then (some .notFound, db)
    else if db.products.any (fun r => r.categoryId == id) then
      (some (.dbError fkRestrictMsg), db)
    else (none, { db with categories := db.categories.filter (fun r => r.id != id) })

end CategoryRepository

namespace ProductRepository

/-- One row of the products JOIN categories result set: none when the
row's category is dangling (the inner join drops it). -/
def rowWithCategory (db : Store) (r : ProductRow) : Option Product :=
  (lookupCategory db r.categoryId).map (fun c =>
    { id := r.id, name := r.name, price := r.price, stock := r.stock,
      categoryId := r.categoryId, category := some c })

/-- The full products JOIN categories result set. -/
def joined (db : Store) : List Product :=
  db.products.filterMap (rowWithCategory db)

/-- SELECT ... FROM products JOIN categories; the result slice is built
from make(..., 0) and is therefore never the nil slice. -/
def GetAll (db : Store) : Except AppError (GoSlice Product) :=
  match db.fault with
  | some s => .error (.dbError s)
  | none => .ok (.mk (joined db))

/-- INSERT INTO products ... RETURNING id: fails with a raw constraint
error when the referenced category does not exist; otherwise assigns
the next sequence value onto the passed entity and appends the row. -/
def Create (db : Store) (p : Product) : Option AppError × Store × Product :=
  match db.fault with
  | some s => (some (.dbError s), db, p)
  | none =>
    match lookupCategory db p.categoryId with
    | none => (some (.dbError fkViolationMsg), db, p)
    | some _ =>
      let row : ProductRow :=
        { id := db.nextProductId, name := p.name, price := p.price,
          stock := p.stock, categoryId := p.categoryId }
      (none,
       { db with products := db.products ++ [row],
                 nextProductId := db.nextProductId + 1 },
       { p with id := db.nextProductId })

/-- SELECT ... JOIN ... WHERE p.id = $1: ErrNotFound exactly on
sql.ErrNoRows, i.e. when no joined row matches. -/
def GetByID (db : Store) (id : Int) : Except AppError Product :=
  match db.fault with
  | some s => .error (.dbError s)
  | none =>
    match (joined db).find? (fun p => p.id == id) with
    | none => .error .notFound
    | some p => .ok p

/-- UPDATE products SET name, price, stock, category_id WHERE id: when
no row matches, zero rows are affected and Exec succeeds, so
ErrNotFound is returned; when a row matches but the new category_id
references no category, the store rejects the statement with its
foreign-key error (the schema enforces the reference), which Exec
surfaces and the code returns raw; otherwise the matching rows are
replaced. -/
def Update (db : Store) (p : Product) : Option AppError × Store :=
  match db.fault with
  | some s => (some (.dbError s), db)
  | none =>
    let rowsAffected := db.products.countP (fun r => r.id == p.id)
    if rowsAffected = 0 then (some .notFound, db)
    else
      match lookupCategory db p.categoryId with
      | none => (some (.dbError fkViolationMsg), db)
      | some _ =>
        (none,
         { db with products := db.products.map (fun r =>
             if r.id == p.id then
               { r with name := p.name, price := p.price,
                        stock := p.stock, categoryId := p.categoryId }
             else r) })

/-- DELETE FROM products WHERE id: ErrNotFound exactly when zero rows
are affected. -/
def Delete (db : Store) (id : Int) : Option AppError × Store :=
  match db.fault with
  | some s => (some (.dbError s), db)
  | none =>
    let rowsAffected := db.products.countP (fun r => r.id == id)
    if rowsAffected = 0 then (some .notFound, db)
    else (none, { db with products := db.products.filter (fun r => r.id != id) })

end ProductRepository

/-! ## Business layer (internal/service) -/

namespace CategoryService

/-- CategoryService.GetAll: pure passthrough. -/
def GetAll (db : Store) : Except AppError (GoSlice Category) :=
  CategoryRepository.GetAll db

/-- CategoryService.Create: pure passthrough. -/
def Create (db : Store) (c : Category) : Option AppError × Store × Category :=
  CategoryRepository.Create db c

/-- CategoryService.GetByID: pure passthrough. -/
def GetByID (db : Store) (id : Int) : Except AppError Category :=
  CategoryRepository.GetByID db id

/-- CategoryService.Update: pure passthrough. -/
def Update (db : Store) (c : Category) : Option AppError × Store :=
  CategoryRepository.Update db c

/-- CategoryService.Delete: pure passthrough. -/
def Delete (db : Store) (id : Int) : Option AppError × Store :=
  CategoryRepository.Delete db id

end CategoryService

namespace ProductService

/-- ProductService.GetAll: pure passthrough. -/
def GetAll (db : Store) : Except AppError (GoSlice Product) :=
  ProductRepository.GetAll db

/-- ProductService.Create: looks the product's category up first; a
NotFound on that lookup becomes CategoryNotFound, any other lookup
error propagates unchanged, and only on success is the product
repository invoked. -/
def Create (db : Store) (p : Product) : Option AppError × Store × Product :=
  match CategoryRepository.GetByID db p.categoryId with
  | .error e => (some (if e = .notFound then .categoryNotFound else e), db, p)
  | .ok _ => ProductRepository.Create db p

/-- ProductService.GetByID: pure passthrough. -/
def GetByID (db : Store) (id : Int) : Except AppError Product :=
  ProductRepository.GetByID db id

/-- ProductService.Update: same category pre-check as Create. -/
def Update (db : Store) (p : Product) : Option AppError × Store :=
  match CategoryRepository.GetByID db p.categoryId with
  | .error e => (some (if e = .notFound then .categoryNotFound else e), db)
  | .ok _ => ProductRepository.Update db p

/-- ProductService.Delete: pure passthrough. -/
def Delete (db : Store) (id : Int) : Option AppError × Store :=
  ProductRepository.Delete db id

end ProductService

/-! ## JSON values and the response envelope -/

/-- JSON values, as produced and consumed by the service. -/
inductive Json where
  | null : Json
  | bool : Bool → Json
  | num : Int → Json
  | str : String → Json
  | arr : List Json → Json
  | obj : List (String × Json) → Json

/-- Keys and fixed strings of the HTTP surface. -/
def kSuccess : String := "success"

def kData : String := "data"

def kError : String := "error"

def kId : String := "id"

def kName : String := "name"

def kDescription : String := "description"

def kPrice : String := "price"

def kStock : String := "stock"

def kCategoryId : String := "category_id"

def kCategory : String := "category"

def kMessage : String := "message"

def kStatus : String := "status"

def kDatabase : String := "database"

def mGET : String := "GET"

def mPOST : String := "POST"

def mPUT : String := "PUT"

def mDELETE : String := "DELETE"

def pHealth : String := "/health"

def pCategories : String := "/api/categories"

def pCategoriesSlash : String := "/api/categories/"

def pProducts : String := "/api/products"

def pProductsSlash : String := "/api/products/"

def msgInvalidBody : String := "Invalid request body"

def msgInvalidProductID : String := "Invalid product ID"

def msgInvalidCategoryID : String := "Invalid category ID"

def msgProductNotFound : String := "Product not found"

def msgCategoryNotFound : String := "Category not found"

def msgFailedFetchProducts : String := "Failed to fetch products"

def msgFailedCreateProduct : String := "Failed to create product"

def msgFailedFetchProduct : String := "Failed to fetch product"

def msgFailedUpdateProduct : String := "Failed to update product"

def msgFailedDeleteProduct : String := "Failed to delete product"

def msgProductDeleted : String := "Product deleted successfully"

def msgFailedFetchCategories : String := "Failed to fetch categories"

def msgFailedCreateCategory : String := "Failed to create category"

def msgFailedFetchCategory : String := "Failed to fetch category"

def msgFailedUpdateCategory : String := "Failed to update category"

def msgFailedDeleteCategory : String := "Failed to delete category"

def msgCategoryDeleted : String := "Category deleted successfully"

def msgMethodNotAllowed : String := "Method not allowed"

def msgDbConnFailed : String := "Database connection failed"

def vHealthy : String := "healthy"

def vConnected : String := "connected"

/-- An HTTP request as the handlers see it: method, URL path, and the
request body (none models an unreadable or non-JSON body). -/
structure Request where
  method : String
  path : String
  body : Option Json

/-- An HTTP response: status code and JSON body. -/
structure Response where
  status : Nat
  body : Json

/-- Modelled from the spec: the shared WriteJSON helper is called by the
handlers under src but its definition is not among the provided
sources; per the spec and the README, every success body is the
envelope with success true and the payload under data. -/
def WriteJSON (status : Nat) (payload : Json) : Response :=
  { status := status,
    body := .obj [(kSuccess, .bool true), (kData, payload)] }

/-- Modelled from the spec: the shared WriteError helper is called by
the handlers under src but its definition is not among the provided
sources; per the spec and the README, every error body is the envelope
with success false and a message under error. -/
def WriteError (status : Nat) (msg : String) : Response :=
  { status := status,
    body := .obj [(kSuccess, .bool false), (kError, .str msg)] }

/-- JSON encoding of a Category (description has omitempty). -/
def Category.toJson (c : Category) : Json :=
  .obj ([(kId, .num c.id), (kName, .str c.name)] ++
    (if c.description = "" then [] else [(kDescription, .str c.description)]))

/-- JSON encoding of a Product (the category snapshot has omitempty). -/
def Product.toJson (p : Product) : Json :=
  .obj ([(kId, .num p.id), (kName, .str p.name), (kPrice, .num p.price),
         (kStock, .num p.stock), (kCategoryId, .num p.categoryId)] ++
    (match p.category with
     | none => []
     | some c => [(kCategory, Category.toJson c)]))

/-- JSON encoding of a Go slice: the nil slice encodes as null, any
other slice as an array. -/
def encodeSlice {α : Type} (enc : α → Json) : GoSlice α → Json
  | .nil => .null
  | .mk l => .arr (l.map enc)

/-- The one-field message object returned by the delete handlers. -/
def messageJson (msg : String) : Json :=
  .obj [(kMessage, .str msg)]

/-- Look a key up in a JSON object (Go keeps the last duplicate). -/
def jLookup (fields : List (String × Json)) (k : String) : Option Json :=
  ((fields.filter (fun f => f.1 == k)).getLast?).map (fun f => f.2)

/-- Decode an int-typed struct field: absent or null leaves the zero
value, a number is taken, anything else is a decode error. -/
def decodeIntField (fields : List (String × Json)) (k : String) : Option Int :=
  match jLookup fields k with
  | none => some 0
  | some .null => some 0
  | some (.num n) => some n
  | some _ => none

/-- Decode a string-typed struct field, like decodeIntField. -/
def decodeStrField (fields : List (String × Json)) (k : String) : Option String :=
  match jLookup fields k with
  | none => some ""
  | some .null => some ""
  | some (.str s) => some s
  | some _ => none

/-- Decode a JSON body into domain.Category. -/
def decodeCategory (j : Json) : Option Category :=
  match j with
  | .obj fields =>
    match decodeIntField fields kId, decodeStrField fields kName,
          decodeStrField fields kDescription with
    | some id, some name, some descr =>
      some { id := id, name := name, description := descr }
    | _, _, _ => none
  | _ => none

/-- Decode the pointer-typed category field: absent or null is a nil
pointer, an object decodes, anything else is a decode error. -/
def decodeCatPtrField (fields : List (String × Json)) : Option (Option Category) :=
  match jLookup fields kCategory with
  | none => some none
  | some .null => some none
  | some j =>
    match decodeCategory j with
    | some c => some (some c)
    | none => none

/-- Decode a JSON body into domain.Product. -/
def decodeProduct (j : Json) : Option Product :=
  match j with
  | .obj fields =>
    match decodeIntField fields kId, decodeStrField fields kName,
          decodeIntField fields kPrice, decodeIntField fields kStock,
          decodeIntField fields kCategoryId, decodeCatPtrField fields with
    | some id, some name, some price, some stock, some categoryId, some category =>
      some { id := id, name := name, price := price, stock := stock,
             categoryId := categoryId, category := category }
    | _, _, _, _, _, _ => none
  | _ => none

/-! ## Request layer (internal/handler, envelope variant) -/

namespace ProductHandler

/-- GET on the products collection. -/
def GetAll (db : Store) : Response × Store :=
  match ProductService.GetAll db with
  | .error _ => (WriteError 500 msgFailedFetchProducts, db)
  | .ok products => (WriteJSON 200 (encodeSlice Product.toJson products), db)

/-- POST on the products collection: decode, create, 201 with the
created entity; CategoryNotFound maps to 400, other failures to 400. -/
def Create (db : Store) (r : Request) : Response × Store :=
  match r.body.bind decodeProduct with
  | none => (WriteError 400 msgInvalidBody, db)
  | some product =>
    let res := ProductService.Create db product
    match res.1 with
    | some e =>
      if e = .categoryNotFound then (WriteError 400 msgCategoryNotFound, res.2.1)
      else (WriteError 400 msgFailedCreateProduct, res.2.1)
    | none => (WriteJSON 201 (Product.toJson res.2.2), res.2.1)

/-- GET on a product item path. -/
def GetByID (db : Store) (r : Request) : Response × Store :=
  match parseIDFromPath r.path pProductsSlash with
  | none => (WriteError 400 msgInvalidProductID, db)
  | some id =>
    match ProductService.GetByID db id with
    | .error e =>
      if e = .notFound then (WriteError 404 msgProductNotFound, db)
      else (WriteError 500 msgFailedFetchProduct, db)
    | .ok p => (WriteJSON 200 (Product.toJson p), db)

/-- PUT on a product item path: the id extracted from the path is
written over the decoded body before Update is invoked. -/
def Update (db : Store) (r : Request) : Response × Store :=
  match parseIDFromPath r.path pProductsSlash with
  | none => (WriteError 400 msgInvalidProductID, db)
  | some id =>
    match r.body.bind decodeProduct with
    | none => (WriteError 400 msgInvalidBody, db)
    | some product0 =>
      let product := { product0 with id := id }
      let res := ProductService.Update db product
      match res.1 with
      | some e =>
        if e = .notFound then (WriteError 404 msgProductNotFound, res.2)
        else if e = .categoryNotFound then (WriteError 400 msgCategoryNotFound, res.2)
        else (WriteError 400 msgFailedUpdateProduct, res.2)
      | none => (WriteJSON 200 (Product.toJson product), res.2)

/-- DELETE on a product item path. -/
def Delete (db : Store) (r : Request) : Response × Store :=
  match parseIDFromPath r.path pProductsSlash with
  | none => (WriteError 400 msgInvalidProductID, db)
  | some id =>
    let res := ProductService.Delete db id
    match res.1 with
    | some e =>
      if e = .notFound then (WriteError 404 msgProductNotFound, res.2)
      else (WriteError 400 msgFailedDeleteProduct, res.2)
    | none => (WriteJSON 200 (messageJson msgProductDeleted), res.2)

/-- Method dispatch for the products collection path. -/
def HandleProducts (db : Store) (r : Request) : Response × Store :=
  if r.method = mGET then GetAll db
  else if r.method = mPOST then Create db r
  else (WriteError 405 msgMethodNotAllowed, db)

/-- Method dispatch for the product item path. -/
def HandleProductByID (db : Store) (r : Request) : Response × Store :=
  if r.method = mGET then GetByID db r
  else if r.method = mPUT then Update db r
  else if r.method = mDELETE then Delete db r
  else (WriteError 405 msgMethodNotAllowed, db)

end ProductHandler

namespace CategoryHandler

/-- GET on the categories collection. -/
def GetAll (db : Store) : Response × Store :=
  match CategoryService.GetAll db with
  | .error _ => (WriteError 500 msgFailedFetchCategories, db)
  | .ok categories => (WriteJSON 200 (encodeSlice Category.toJson categories), db)

/-- POST on the categories collection: decode, create, 201 with the
created entity; any create failure maps to 500. -/
def Create (db : Store) (r : Request) : Response × Store :=
  match r.body.bind decodeCategory with
  | none => (WriteError 400 msgInvalidBody, db)
  | some category =>
    let res := CategoryService.Create db category
    match res.1 with
    | some _ => (WriteError 500 msgFailedCreateCategory, res.2.1)
    | none => (WriteJSON 201 (Category.toJson res.2.2), res.2.1)

/-- GET on a category item path. -/
def GetByID (db : Store) (r : Request) : Response × Store :=
  match parseIDFromPath r.path pCategoriesSlash with
  | none => (WriteError 400 msgInvalidCategoryID, db)
  | some id =>
    match CategoryService.GetByID db id with
    | .error e =>
      if e = .notFound then (WriteError 404 msgCategoryNotFound, db)
      else (WriteError 500 msgFailedFetchCategory, db)
    | .ok c => (WriteJSON 200 (Category.toJson c), db)

/-- PUT on a category item path: the id extracted from the path is
written over the decoded body before Update is invoked. -/
def Update (db : Store) (r : Request) : Response × Store :=
  match parseIDFromPath r.path pCategoriesSlash with
  | none => (WriteError 400 msgInvalidCategoryID, db)
  | some id =>
    match r.body.bind decodeCategory with
    | none => (WriteError 400 msgInvalidBody, db)
    | some category0 =>
      let category := { category0 with id := id }
      let res := CategoryService.Update db category
      match res.1 with
      | some e =>
        if e = .notFound then (WriteError 404 msgCategoryNotFound, res.2)
        else (WriteError 500 msgFailedUpdateCategory, res.2)
      | none => (WriteJSON 200 (Category.toJson category), res.2)

/-- DELETE on a category item path. -/
def Delete (db : Store) (r : Request) : Response × Store :=
  match parseIDFromPath r.path pCategoriesSlash with
  | none => (WriteError 400 msgInvalidCategoryID, db)
  | some id =>
    let res := CategoryService.Delete db id
    match res.1 with
    | some e =>
      if e = .notFound then (WriteError 404 msgCategoryNotFound, res.2)
      else (WriteError 500 msgFailedDeleteCategory, res.2)
    | none => (WriteJSON 200 (messageJson msgCategoryDeleted), res.2)

/-- Method dispatch for the categories collection path. -/
def HandleCategories (db : Store) (r : Request) : Response × Store :=
  if r.method = mGET then GetAll db
  else if r.method = mPOST then Create db r
  else (WriteError 405 msgMethodNotAllowed, db)

/-- Method dispatch for the category item path. -/
def HandleCategoryByID (db : Store) (r : Request) : Response × Store :=
  if r.method = mGET then GetByID db r
  else if r.method = mPUT then Update db r
  else if r.method = mDELETE then Delete db r
  else (WriteError 405 msgMethodNotAllowed, db)

end CategoryHandler

namespace HealthHandler

/-- GET /health: pings the store; 503 when unreachable. -/
def Health (db : Store) (r : Request) : Response × Store :=
  if r.method ≠ mGET then (WriteError 405 msgMethodNotAllowed, db)
  else
    match db.fault with
    | some _ => (WriteError 503 msgDbConnFailed, db)
    | none =>
      (WriteJSON 200 (.obj [(kStatus, .str vHealthy), (kDatabase, .str vConnected)]), db)

end HealthHandler

/-- The router (internal/router): exact collection paths and
trailing-slash item subtrees, dispatching to the handlers above; none
when no application route matches. -/
def route (db : Store) (r : Request) : Option (Response × Store) :=
  if r.path = pHealth then some (HealthHandler.Health db r)
  else if r.path = pCategories then some (CategoryHandler.HandleCategories db r)
  else if hasPre r.path pCategoriesSlash then some (CategoryHandler.HandleCategoryByID db r)
  else if r.path = pProducts then some (ProductHandler.HandleProducts db r)
  else if hasPre r.path pProductsSlash then some (ProductHandler.HandleProductByID db r)
  else none

/-! ## Spec-side notions used to state the claims -/

/-- A string that denotes a signed decimal integer: an optional sign
followed by one or more ASCII decimal digits (the claims' notion of a
valid signed decimal integer, stated independently of the parser). -/
def isSignedDecimalString (s : String) : Prop :=
  (splitSign s.data).2 ≠ [] ∧ (splitSign s.data).2.all isDig = true

instance (s : String) : Decidable (isSignedDecimalString s) :=
  inferInstanceAs (Decidable (And _ _))

/-- The integer a signed decimal string denotes. -/
def decimalValue (s : String) : Int :=
  signedVal (splitSign s.data)

/-- The uniform response envelope of spec section 6: either a success
body carrying a payload under data, or an error body carrying a
message under error. -/
def isEnvelope (b : Json) : Prop :=
  (∃ payload, b = .obj [(kSuccess, .bool true), (kData, payload)]) ∨
  (∃ msg, b = .obj [(kSuccess, .bool false), (kError, .str msg)])

/-! ## Concrete sample data used by the witnesses -/

def sName : String := "Snacks"

def sDescr : String := "Light food"

def prodName : String := "Noodles"

def faultMsg : String := "connection reset"

/-- A fresh, fault-free store with no rows. -/
def emptyStore : Store :=
  { categories := [], products := [], nextCategoryId := 1,
    nextProductId := 1, fault := none }

def sampleCat : Category :=
  { id := 1, name := sName, description := sDescr }

/-- A store holding one category and nothing else. -/
def storeOneCat : Store :=
  { categories := [sampleCat], products := [], nextCategoryId := 2,
    nextProductId := 1, fault := none }

def sampleRow : ProductRow :=
  { id := 5, name := prodName, price := 3500, stock := 100, categoryId := 1 }

/-- A store holding one category and one product referencing it. -/
def storeCatProd : Store :=
  { categories := [sampleCat], products := [sampleRow], nextCategoryId := 2,
    nextProductId := 6, fault := none }

/-- A store whose transport connection fails every round-trip. -/
def faultyStore : Store :=
  { emptyStore with fault := some faultMsg }

/-- A product input whose category_id references no category. -/
def noCatProduct : Product :=
  { id := 0, name := prodName, price := 3500, stock := 100,
    categoryId := 999, category := none }

/-- A product input referencing the sample category. -/
def okProduct : Product :=
  { id := 0, name := prodName, price := 3500, stock := 100,
    categoryId := 1, category := none }

def mPATCH : String := "PATCH"

def pProd5 : String := "/api/products/5"

def pProdAbc : String := "/api/products/abc"

def pProd1 : String := "/api/products/1"

def pProdNeg5 : String := "/api/products/-5"

def pProdHuge : String := "/api/products/9223372036854775808"

def hugeIntStr : String := "9223372036854775808"

def pCat1 : String := "/api/categories/1"

def reqHealth : Request := { method := mGET, path := pHealth, body := none }

def reqPatchProd5 : Request := { method := mPATCH, path := pProd5, body := none }

def reqGetProdAbc : Request := { method := mGET, path := pProdAbc, body := none }

def reqGetProd1 : Request := { method := mGET, path := pProd1, body := none }

def reqGetCat1 : Request := { method := mGET, path := pCat1, body := none }

def reqGetProdNeg5 : Request := { method := mGET, path := pProdNeg5, body := none }

def reqGetProdHuge : Request := { method := mGET, path := pProdHuge, body := none }

/-- PUT body referencing a missing category (id 999). -/
def putBody999 : Json :=
  .obj [(kName, .str prodName), (kPrice, .num 3500), (kStock, .num 100),
        (kCategoryId, .num 999)]

def reqPutProd5Cat999 : Request :=
  { method := mPUT, path := pProd5, body := some putBody999 }

/-- PUT body whose own id field (99) disagrees with the path id (5). -/
def putBodyId99 : Json :=
  .obj [(kId, .num 99), (kName, .str prodName), (kPrice, .num 4000),
        (kStock, .num 50), (kCategoryId, .num 1)]

def reqPutProd5Id99 : Request :=
  { method := mPUT, path := pProd5, body := some putBodyId99 }

/-- A decodable category creation body. -/
def catBody : Json :=
  .obj [(kName, .str sName), (kDescription, .str sDescr)]

def reqPostCat : Request :=
  { method := mPOST, path := pCategories, body := some catBody }

def reqDeleteProd1 : Request := { method := mDELETE, path := pProd1, body := none }

def negFiveStr : String := "-5"

/-- The store state CategoryRepository.Create reaches on success: the
input row appended under the next sequence id, sequence advanced. -/
def catInsertStore (db : Store) (cIn : Category) : Store :=
  { db with
      categories := db.categories ++ [{ cIn with id := db.nextCategoryId }],
      nextCategoryId := db.nextCategoryId + 1 }

/-- The row the products INSERT writes for a given input. -/
def prodRowOf (db : Store) (pIn : Product) : ProductRow :=
  { id := db.nextProductId, name := pIn.name, price := pIn.price,
    stock := pIn.stock, categoryId := pIn.categoryId }

/-- The store state ProductRepository.Create reaches on success. -/
def prodInsertStore (db : Store) (pIn : Product) : Store :=
  { db with
      products := db.products ++ [prodRowOf db pIn],
      nextProductId := db.nextProductId + 1 }

/-- The joined result row for a freshly inserted product input and its
referenced category. -/
def joinedRowOf (db : Store) (pIn : Product) (cat : Category) : Product :=
  { id := db.nextProductId, name := pIn.name, price := pIn.price,
    stock := pIn.stock, categoryId := pIn.categoryId, category := some cat }

/-- The product that putBodyId99 decodes to (before the id override). -/
def putP : Product :=
  { id := 99, name := prodName, price := 4000, stock := 50,
    categoryId := 1, category := none }

/-! ## Helper lemmas -/

theorem writeJSON_envelope (s : Nat) (p : Json) : isEnvelope (WriteJSON s p).body :=
  Or.inl ⟨p, rfl⟩

theorem writeError_envelope (s : Nat) (m : String) : isEnvelope (WriteError s m).body :=
  Or.inr ⟨m, rfl⟩

theorem countP_zero_iff {α : Type} (l : List α) (f : α → Int) (v : Int) :
    l.countP (fun r => f r == v) = 0 ↔ ¬ ∃ r ∈ l, f r = v := by
  rw [List.countP_eq_zero]
  simp

/-! ## Claim C1 -/

/-- Claim C1: a Product Create or Update whose category_id references no
category fails with CategoryNotFound, the product persistence
operation is never reached (store and entity come back untouched), and
any category-lookup error other than NotFound (a raw store fault) is
propagated unchanged, again without touching the store. -/
theorem productService_checks_category_before_write :
    ∀ (db : Store) (p : Product),
      (db.fault = none → lookupCategory db p.categoryId = none →
        ProductService.Create db p = (some .categoryNotFound, db, p) ∧
        ProductService.Update db p = (some .categoryNotFound, db)) ∧
      (∀ s, db.fault = some s →
        ProductService.Create db p = (some (.dbError s), db, p) ∧
        ProductService.Update db p = (some (.dbError s), db)) := by
  intro db p
  constructor
  · intro hf hl
    constructor <;>
      simp [ProductService.Create, ProductService.Update,
            CategoryRepository.GetByID, hf, hl]
  · intro s hf
    constructor <;>
      simp [ProductService.Create, ProductService.Update,
            CategoryRepository.GetByID, hf]

/-- Witness for C1 at concrete inputs: a missing category (999 in an
empty store) and a raw store fault. -/
theorem productService_checks_category_before_write_witness :
    ProductService.Create emptyStore noCatProduct =
      (some .categoryNotFound, emptyStore, noCatProduct) ∧
    ProductService.Update emptyStore noCatProduct =
      (some .categoryNotFound, emptyStore) ∧
    ProductService.Create faultyStore noCatProduct =
      (some (.dbError faultMsg), faultyStore, noCatProduct) ∧
    ProductService.Update faultyStore noCatProduct =
      (some (.dbError faultMsg), faultyStore) := by
  have h1 := (productService_checks_category_before_write emptyStore noCatProduct).1 rfl rfl
  have h2 :=
    (productService_checks_category_before_write faultyStore noCatProduct).2 faultMsg rfl
  exact ⟨h1.1, h1.2, h2.1, h2.2⟩

/-! ## Claim C4 -/

/-- Claim C4 (exhibit of the divergence): on POST /api/categories with a
decodable body, a store failure that is neither NotFound nor
CategoryNotFound is mapped to status 500 by the category create
handler, where the spec's table assigns 400 to create/update
failures. -/
theorem category_create_generic_error_returns_500 :
    (CategoryHandler.Create faultyStore reqPostCat).1.status = 500 := by
  rfl

/-! ## Claim C9 -/

/-- Claim C9: a successful repository Create changes no field of the
passed entity except the assigned identifier, and a failed Create
changes neither the entity nor the store. -/
theorem create_frame_only_id_assigned :
    ∀ (db : Store) (c : Category) (p : Product),
      ((CategoryRepository.Create db c).1 = none →
        (CategoryRepository.Create db c).2.2.name = c.name ∧
        (CategoryRepository.Create db c).2.2.description = c.description) ∧
      ((CategoryRepository.Create db c).1 ≠ none →
        CategoryRepository.Create db c = ((CategoryRepository.Create db c).1, db, c)) ∧
      ((ProductRepository.Create db p).1 = none →
        (ProductRepository.Create db p).2.2.name = p.name ∧
        (ProductRepository.Create db p).2.2.price = p.price ∧
        (ProductRepository.Create db p).2.2.stock = p.stock ∧
        (ProductRepository.Create db p).2.2.categoryId = p.categoryId ∧
        (ProductRepository.Create db p).2.2.category = p.category) ∧
      ((ProductRepository.Create db p).1 ≠ none →
        ProductRepository.Create db p = ((ProductRepository.Create db p).1, db, p)) := by
  intro db c p
  cases hf : db.fault with
  | none =>
    refine ⟨?_, ?_, ?_, ?_⟩
    · intro _
      simp [CategoryRepository.Create, hf]
    · intro h
      exact absurd (by simp [CategoryRepository.Create, hf]) h
    · intro h
      cases hl : lookupCategory db p.categoryId with
      | none => simp [ProductRepository.Create, hf, hl] at h
      | some cat => simp [ProductRepository.Create, hf, hl]
    · intro h
      cases hl : lookupCategory db p.categoryId with
      | none => simp [ProductRepository.Create, hf, hl]
      | some cat => simp [ProductRepository.Create, hf, hl] at h
  | some s =>
    refine ⟨?_, ?_, ?_, ?_⟩
    · intro h
      simp [CategoryRepository.Create, hf] at h
    · intro _
      simp [CategoryRepository.Create, hf]
    · intro h
      simp [ProductRepository.Create, hf] at h
    · intro _
      simp [ProductRepository.Create, hf]

/-- Witness for C9: a successful and a failed create for each entity. -/
theorem create_frame_only_id_assigned_witness :
    ((CategoryRepository.Create storeOneCat sampleCat).2.2.name = sampleCat.name ∧
     (CategoryRepository.Create storeOneCat sampleCat).2.2.description =
       sampleCat.description) ∧
    CategoryRepository.Create faultyStore sampleCat =
      ((CategoryRepository.Create faultyStore sampleCat).1, faultyStore, sampleCat) ∧
    ((ProductRepository.Create storeOneCat okProduct).2.2.name = okProduct.name ∧
     (ProductRepository.Create storeOneCat okProduct).2.2.price = okProduct.price ∧
     (ProductRepository.Create storeOneCat okProduct).2.2.stock = okProduct.stock ∧
     (ProductRepository.Create storeOneCat okProduct).2.2.categoryId =
       okProduct.categoryId ∧
     (ProductRepository.Create storeOneCat okProduct).2.2.category =
       okProduct.category) ∧
    ProductRepository.Create emptyStore noCatProduct =
      ((ProductRepository.Create emptyStore noCatProduct).1, emptyStore, noCatProduct) :=
  ⟨(create_frame_only_id_assigned storeOneCat sampleCat okProduct).1 rfl,
   (create_frame_only_id_assigned faultyStore sampleCat okProduct).2.1 (by decide),
   (create_frame_only_id_assigned storeOneCat sampleCat okProduct).2.2.1 rfl,
   (create_frame_only_id_assigned emptyStore sampleCat noCatProduct).2.2.2 (by decide)⟩

/-! ## Claim C5 -/

/-- Claim C5 (counterexample): with one product row (id 5, category 1)
stored, updating that existing row to the dangling category_id 999
fails with the store's foreign-key error — neither success nor
NotFound — although a row matches; likewise deleting category 1, which
product 5 still references, fails with the restrict error.  So
Update/Delete do not succeed whenever rows match, contrary to the
claim as stated. -/
theorem update_and_delete_hit_fk_constraints :
    (∃ r ∈ storeCatProd.products, r.id = 5) ∧
    (ProductRepository.Update storeCatProd { noCatProduct with id := 5 }).1 =
      some (.dbError fkViolationMsg) ∧
    (∃ r ∈ storeCatProd.categories, r.id = 1) ∧
    (CategoryRepository.Delete storeCatProd 1).1 = some (.dbError fkRestrictMsg) :=
  ⟨⟨sampleRow, List.mem_cons_self _ _, rfl⟩, rfl,
   ⟨sampleCat, List.mem_cons_self _ _, rfl⟩, rfl⟩

/-- Claim C5 (amended): for both entities, GetByID fails with NotFound
exactly when zero rows match (for Product, zero joined rows) and
returns the matching row otherwise; Update and Delete fail with
NotFound exactly when no row matches the identifier and succeed
otherwise — except that updating an existing product to a category_id
referencing no category, and deleting a category still referenced by
products, fail with the store's foreign-key constraint error.  No
condition other than NotFound is used for an absent row. -/
theorem repository_notFound_iff_zero_rows :
    ∀ (db : Store) (id : Int) (c : Category) (p : Product),
      db.fault = none →
      (CategoryRepository.GetByID db id = .error .notFound ↔
        lookupCategory db id = none) ∧
      (∀ x, lookupCategory db id = some x →
        CategoryRepository.GetByID db id = .ok x) ∧
      ((CategoryRepository.Update db c).1 = some .notFound ↔
        ¬ ∃ r ∈ db.categories, r.id = c.id) ∧
      ((CategoryRepository.Update db c).1 = none ↔
        ∃ r ∈ db.categories, r.id = c.id) ∧
      ((CategoryRepository.Delete db id).1 = some .notFound ↔
        ¬ ∃ r ∈ db.categories, r.id = id) ∧
      ((∃ r ∈ db.categories, r.id = id) → (∃ q ∈ db.products, q.categoryId = id) →
        (CategoryRepository.Delete db id).1 = some (.dbError fkRestrictMsg)) ∧
      ((∃ r ∈ db.categories, r.id = id) → ¬ (∃ q ∈ db.products, q.categoryId = id) →
        (CategoryRepository.Delete db id).1 = none) ∧
      (ProductRepository.GetByID db id = .error .notFound ↔
        (ProductRepository.joined db).find? (fun q => q.id == id) = none) ∧
      (∀ x, (ProductRepository.joined db).find? (fun q => q.id == id) = some x →
        ProductRepository.GetByID db id = .ok x) ∧
      ((ProductRepository.Update db p).1 = some .notFound ↔
        ¬ ∃ r ∈ db.products, r.id = p.id) ∧
      ((∃ r ∈ db.products, r.id = p.id) → lookupCategory db p.categoryId = none →
        (ProductRepository.Update db p).1 = some (.dbError fkViolationMsg)) ∧
      ((∃ r ∈ db.products, r.id = p.id) →
        (∃ cc, lookupCategory db p.categoryId = some cc) →
        (ProductRepository.Update db p).1 = none) ∧
      ((ProductRepository.Delete db id).1 = some .notFound ↔
        ¬ ∃ r ∈ db.products, r.id = id) ∧
      ((ProductRepository.Delete db id).1 = none ↔
        ∃ r ∈ db.products, r.id = id) := by
  intro db id c p hf
  refine ⟨?_, ?_, ?_, ?_, ?_, ?_, ?_, ?_, ?_, ?_, ?_, ?_, ?_, ?_⟩
  · cases hl : lookupCategory db id with
    | none => simp [CategoryRepository.GetByID, hf, hl]
    | some x => simp [CategoryRepository.GetByID, hf, hl]
  · intro x hx
    simp [CategoryRepository.GetByID, hf, hx]
  · rcases Nat.eq_zero_or_pos (db.categories.countP (fun r => r.id == c.id)) with hn | hn
    · have h2 := (countP_zero_iff db.categories (fun r => r.id) c.id).mp hn
      simp [CategoryRepository.Update, hf, hn, h2]
    · have h2 : ∃ r ∈ db.categories, r.id = c.id := by
        have := List.countP_pos_iff.mp hn
        simpa using this
      have h3 : ¬ ∀ a ∈ db.categories, ¬ a.id = c.id := by
        push_neg
        exact h2
      simp [CategoryRepository.Update, hf, h3]
  · rcases Nat.eq_zero_or_pos (db.categories.countP (fun r => r.id == c.id)) with hn | hn
    · have h2 := (countP_zero_iff db.categories (fun r => r.id) c.id).mp hn
      simp [CategoryRepository.Update, hf, hn, h2]
    · have h2 : ∃ r ∈ db.categories, r.id = c.id := by
        have := List.countP_pos_iff.mp hn
        simpa using this
      have h3 : ¬ ∀ a ∈ db.categories, ¬ a.id = c.id := by
        push_neg
        exact h2
      simp [CategoryRepository.Update, hf, h3]
      exact h2
  · rcases Nat.eq_zero_or_pos (db.categories.countP (fun r => r.id == id)) with hn | hn
    · have h2 := (countP_zero_iff db.categories (fun r => r.id) id).mp hn
      simp [CategoryRepository.Delete, hf, hn, h2]
    · have h2 : ∃ r ∈ db.categories, r.id = id := by
        have := List.countP_pos_iff.mp hn
        simpa using this
      have h3 : ¬ ∀ a ∈ db.categories, ¬ a.id = id := by
        push_neg
        exact h2
      by_cases ha : db.products.any (fun r => r.categoryId == id) = true
      · simp [CategoryRepository.Delete, hf, h3, ha, h2]
      · simp [CategoryRepository.Delete, hf, h3, ha, h2]
  · intro hex href
    have h3 : ¬ ∀ a ∈ db.categories, ¬ a.id = id := by
      push_neg
      exact hex
    have ha : db.products.any (fun r => r.categoryId == id) = true := by
      rw [List.any_eq_true]
      simpa using href
    simp [CategoryRepository.Delete, hf, h3, ha]
  · intro hex hnref
    have h3 : ¬ ∀ a ∈ db.categories, ¬ a.id = id := by
      push_neg
      exact hex
    have ha : ¬ db.products.any (fun r => r.categoryId == id) = true := by
      rw [List.any_eq_true]
      simpa using hnref
    simp [CategoryRepository.Delete, hf, h3, ha]
  · cases hl : (ProductRepository.joined db).find? (fun q => q.id == id) with
    | none => simp [ProductRepository.GetByID, hf, hl]
    | some x => simp [ProductRepository.GetByID, hf, hl]
  · intro x hx
    simp [ProductRepository.GetByID, hf, hx]
  · rcases Nat.eq_zero_or_pos (db.products.countP (fun r => r.id == p.id)) with hn | hn
    · have h2 := (countP_zero_iff db.products (fun r => r.id) p.id).mp hn
      simp [ProductRepository.Update, hf, hn, h2]
    · have h2 : ∃ r ∈ db.products, r.id = p.id := by
        have := List.countP_pos_iff.mp hn
        simpa using this
      have h3 : ¬ ∀ a ∈ db.products, ¬ a.id = p.id := by
        push_neg
        exact h2
      cases hl : lookupCategory db p.categoryId with
      | none => simp [ProductRepository.Update, hf, h3, hl, h2]
      | some cc => simp [ProductRepository.Update, hf, h3, hl, h2]
  · intro hex hl
    have h3 : ¬ ∀ a ∈ db.products, ¬ a.id = p.id := by
      push_neg
      exact hex
    simp [ProductRepository.Update, hf, h3, hl]
  · intro hex hcc
    obtain ⟨cc, hcc⟩ := hcc
    have h3 : ¬ ∀ a ∈ db.products, ¬ a.id = p.id := by
      push_neg
      exact hex
    simp [ProductRepository.Update, hf, h3, hcc]
  · rcases Nat.eq_zero_or_pos (db.products.countP (fun r => r.id == id)) with hn | hn
    · have h2 := (countP_zero_iff db.products (fun r => r.id) id).mp hn
      simp [ProductRepository.Delete, hf, hn, h2]
    · have h2 : ∃ r ∈ db.products, r.id = id := by
        have := List.countP_pos_iff.mp hn
        simpa using this
      have h3 : ¬ ∀ a ∈ db.products, ¬ a.id = id := by
        push_neg
        exact h2
      simp [ProductRepository.Delete, hf, h3]
  · rcases Nat.eq_zero_or_pos (db.products.countP (fun r => r.id == id)) with hn | hn
    · have h2 := (countP_zero_iff db.products (fun r => r.id) id).mp hn
      simp [ProductRepository.Delete, hf, hn, h2]
    · have h2 : ∃ r ∈ db.products, r.id = id := by
        have := List.countP_pos_iff.mp hn
        simpa using this
      have h3 : ¬ ∀ a ∈ db.products, ¬ a.id = id := by
        push_neg
        exact h2
      simp [ProductRepository.Delete, hf, h3]
      exact h2

/-- Witness for the amended C5: a lookup in the empty store, a
successful update of an existing product to an existing category, a
successful delete of an unreferenced category, and the delete iff on
an existing product row. -/
theorem repository_notFound_iff_zero_rows_witness :
    (CategoryRepository.GetByID emptyStore 1 = .error .notFound ↔
      lookupCategory emptyStore 1 = none) ∧
    (ProductRepository.Update storeCatProd { putP with id := 5 }).1 = none ∧
    (CategoryRepository.Delete storeOneCat 1).1 = none ∧
    ((ProductRepository.Delete storeCatProd 5).1 = none ↔
      ∃ r ∈ storeCatProd.products, r.id = 5) :=
  ⟨(repository_notFound_iff_zero_rows emptyStore 1 sampleCat okProduct rfl).1,
   (repository_notFound_iff_zero_rows storeCatProd 1 sampleCat
      { putP with id := 5 } rfl).2.2.2.2.2.2.2.2.2.2.2.1
     ⟨sampleRow, List.mem_cons_self _ _, rfl⟩ ⟨sampleCat, rfl⟩,
   (repository_notFound_iff_zero_rows storeOneCat 1 sampleCat okProduct
      rfl).2.2.2.2.2.2.1
     ⟨sampleCat, List.mem_cons_self _ _, rfl⟩ (by decide),
   (repository_notFound_iff_zero_rows storeCatProd 5 sampleCat
      okProduct rfl).2.2.2.2.2.2.2.2.2.2.2.2.2⟩

/-! ## Claim C2 -/

theorem mPUT_ne_mGET : mPUT ≠ mGET := by decide

theorem mDELETE_ne_mGET : mDELETE ≠ mGET := by decide

theorem mDELETE_ne_mPUT : mDELETE ≠ mPUT := by decide

/-- Claim C2: on the item paths, the request layer maps a non-integer
trailing segment to 400, a NotFound business result to 404, a
CategoryNotFound business result to 400, and any method other than
GET, PUT and DELETE to 405, for both entities. -/
theorem item_path_error_status_mapping :
    ∀ (db : Store) (r : Request),
      ((r.method ≠ mGET ∧ r.method ≠ mPUT ∧ r.method ≠ mDELETE) →
        (ProductHandler.HandleProductByID db r).1.status = 405 ∧
        (CategoryHandler.HandleCategoryByID db r).1.status = 405) ∧
      ((r.method = mGET ∨ r.method = mPUT ∨ r.method = mDELETE) →
        parseIDFromPath r.path pProductsSlash = none →
        (ProductHandler.HandleProductByID db r).1.status = 400) ∧
      ((r.method = mGET ∨ r.method = mPUT ∨ r.method = mDELETE) →
        parseIDFromPath r.path pCategoriesSlash = none →
        (CategoryHandler.HandleCategoryByID db r).1.status = 400) ∧
      (∀ id, r.method = mGET → parseIDFromPath r.path pProductsSlash = some id →
        ProductService.GetByID db id = .error .notFound →
        (ProductHandler.HandleProductByID db r).1.status = 404) ∧
      (∀ id p0, r.method = mPUT → parseIDFromPath r.path pProductsSlash = some id →
        r.body.bind decodeProduct = some p0 →
        (ProductService.Update db { p0 with id := id }).1 = some .notFound →
        (ProductHandler.HandleProductByID db r).1.status = 404) ∧
      (∀ id p0, r.method = mPUT → parseIDFromPath r.path pProductsSlash = some id →
        r.body.bind decodeProduct = some p0 →
        (ProductService.Update db { p0 with id := id }).1 = some .categoryNotFound →
        (ProductHandler.HandleProductByID db r).1.status = 400) ∧
      (∀ id, r.method = mDELETE → parseIDFromPath r.path pProductsSlash = some id →
        (ProductService.Delete db id).1 = some .notFound →
        (ProductHandler.HandleProductByID db r).1.status = 404) ∧
      (∀ id, r.method = mGET → parseIDFromPath r.path pCategoriesSlash = some id →
        CategoryService.GetByID db id = .error .notFound →
        (CategoryHandler.HandleCategoryByID db r).1.status = 404) ∧
      (∀ id c0, r.method = mPUT → parseIDFromPath r.path pCategoriesSlash = some id →
        r.body.bind decodeCategory = some c0 →
        (CategoryService.Update db { c0 with id := id }).1 = some .notFound →
        (CategoryHandler.HandleCategoryByID db r).1.status = 404) ∧
      (∀ id, r.method = mDELETE → parseIDFromPath r.path pCategoriesSlash = some id →
        (CategoryService.Delete db id).1 = some .notFound →
        (CategoryHandler.HandleCategoryByID db r).1.status = 404) := by
  intro db r
  refine ⟨?_, ?_, ?_, ?_, ?_, ?_, ?_, ?_, ?_, ?_⟩
  · rintro ⟨h1, h2, h3⟩
    constructor <;>
      simp [ProductHandler.HandleProductByID, CategoryHandler.HandleCategoryByID,
            h1, h2, h3, WriteError]
  · rintro (hm | hm | hm) hp <;>
      simp [ProductHandler.HandleProductByID, ProductHandler.GetByID,
            ProductHandler.Update, ProductHandler.Delete, hm, hp,
            mPUT_ne_mGET, mDELETE_ne_mGET, mDELETE_ne_mPUT, WriteError]
  · rintro (hm | hm | hm) hp <;>
      simp [CategoryHandler.HandleCategoryByID, CategoryHandler.GetByID,
            CategoryHandler.Update, CategoryHandler.Delete, hm, hp,
            mPUT_ne_mGET, mDELETE_ne_mGET, mDELETE_ne_mPUT, WriteError]
  · intro id hm hp hs
    simp [ProductHandler.HandleProductByID, ProductHandler.GetByID, hm, hp, hs,
          WriteError]
  · intro id p0 hm hp hb hs
    simp [ProductHandler.HandleProductByID, ProductHandler.Update, hm, hp, hb, hs,
          mPUT_ne_mGET, WriteError]
  · intro id p0 hm hp hb hs
    simp [ProductHandler.HandleProductByID, ProductHandler.Update, hm, hp, hb, hs,
          mPUT_ne_mGET, WriteError]
  · intro id hm hp hs
    simp [ProductHandler.HandleProductByID, ProductHandler.Delete, hm, hp, hs,
          mDELETE_ne_mGET, mDELETE_ne_mPUT, WriteError]
  · intro id hm hp hs
    simp [CategoryHandler.HandleCategoryByID, CategoryHandler.GetByID, hm, hp, hs,
          WriteError]
  · intro id c0 hm hp hb hs
    simp [CategoryHandler.HandleCategoryByID, CategoryHandler.Update, hm, hp, hb, hs,
          mPUT_ne_mGET, WriteError]
  · intro id hm hp hs
    simp [CategoryHandler.HandleCategoryByID, CategoryHandler.Delete, hm, hp, hs,
          mDELETE_ne_mGET, mDELETE_ne_mPUT, WriteError]

/-- Witness for C2: an unsupported method, a non-integer segment, a
missing product, a product update against a missing category, and a
missing category lookup. -/
theorem item_path_error_status_mapping_witness :
    (ProductHandler.HandleProductByID emptyStore reqPatchProd5).1.status = 405 ∧
    (ProductHandler.HandleProductByID emptyStore reqGetProdAbc).1.status = 400 ∧
    (ProductHandler.HandleProductByID emptyStore reqGetProd1).1.status = 404 ∧
    (ProductHandler.HandleProductByID storeCatProd reqPutProd5Cat999).1.status = 400 ∧
    (CategoryHandler.HandleCategoryByID emptyStore reqGetCat1).1.status = 404 :=
  ⟨((item_path_error_status_mapping emptyStore reqPatchProd5).1
      ⟨by decide, by decide, by decide⟩).1,
   (item_path_error_status_mapping emptyStore reqGetProdAbc).2.1
      (Or.inl rfl) (by decide),
   (item_path_error_status_mapping emptyStore reqGetProd1).2.2.2.1
      1 rfl (by decide) rfl,
   (item_path_error_status_mapping storeCatProd reqPutProd5Cat999).2.2.2.2.2.1
      5 noCatProduct rfl (by decide) rfl rfl,
   (item_path_error_status_mapping emptyStore reqGetCat1).2.2.2.2.2.2.2.1
      1 rfl (by decide) rfl⟩

/-! ## Claim C7 -/

/-- Claim C7: GetAll on a store with no rows returns the empty slice —
never the nil slice — for both entities, any successful GetAll result
is non-nil, and every product in a GetAll result carries a category
snapshot populated from the join against the categories table. -/
theorem getAll_empty_and_join_populated :
    ∀ (db : Store), db.fault = none →
      (db.categories = [] → CategoryRepository.GetAll db = .ok (.mk [])) ∧
      (db.products = [] → ProductRepository.GetAll db = .ok (.mk [])) ∧
      (∀ res, CategoryRepository.GetAll db = .ok res → res ≠ .nil) ∧
      (∀ res, ProductRepository.GetAll db = .ok res → res ≠ .nil) ∧
      (∀ res q, ProductRepository.GetAll db = .ok res → q ∈ res.toList →
        ∃ cc, q.category = some cc ∧ cc ∈ db.categories ∧ cc.id = q.categoryId) := by
  intro db hf
  refine ⟨?_, ?_, ?_, ?_, ?_⟩
  · intro h
    simp [CategoryRepository.GetAll, hf, h]
  · intro h
    simp [ProductRepository.GetAll, ProductRepository.joined, hf, h]
  · intro res h
    simp [CategoryRepository.GetAll, hf] at h
    subst h
    simp
  · intro res h
    simp [ProductRepository.GetAll, hf] at h
    subst h
    simp
  · intro res q h hq
    simp [ProductRepository.GetAll, hf] at h
    subst h
    simp [GoSlice.toList, ProductRepository.joined] at hq
    rcases hq with ⟨r, hr, hrw⟩
    rw [ProductRepository.rowWithCategory] at hrw
    rcases Option.map_eq_some'.mp hrw with ⟨cc, hcc, hqc⟩
    subst hqc
    rw [lookupCategory] at hcc
    refine ⟨cc, rfl, List.mem_of_find?_eq_some hcc, ?_⟩
    have := List.find?_some hcc
    simpa using this

/-- Witness for C7 at the empty store. -/
theorem getAll_empty_and_join_populated_witness :
    CategoryRepository.GetAll emptyStore = .ok (.mk []) ∧
    ProductRepository.GetAll emptyStore = .ok (.mk []) :=
  ⟨(getAll_empty_and_join_populated emptyStore rfl).1 rfl,
   (getAll_empty_and_join_populated emptyStore rfl).2.1 rfl⟩

/-! ## Claim C3 -/

theorem productHandler_getAll_envelope (db : Store) :
    isEnvelope (ProductHandler.GetAll db).1.body := by
  cases h : ProductService.GetAll db with
  | error e => simp [ProductHandler.GetAll, h, writeError_envelope]
  | ok res => simp [ProductHandler.GetAll, h, writeJSON_envelope]

theorem productHandler_create_envelope (db : Store) (r : Request) :
    isEnvelope (ProductHandler.Create db r).1.body := by
  cases hb : r.body.bind decodeProduct with
  | none => simp [ProductHandler.Create, hb, writeError_envelope]
  | some product =>
    cases hres : (ProductService.Create db product).1 with
    | none => simp [ProductHandler.Create, hb, hres, writeJSON_envelope]
    | some e =>
      by_cases he : e = .categoryNotFound <;>
        simp [ProductHandler.Create, hb, hres, he, writeError_envelope]

theorem productHandler_getByID_envelope (db : Store) (r : Request) :
    isEnvelope (ProductHandler.GetByID db r).1.body := by
  cases hp : parseIDFromPath r.path pProductsSlash with
  | none => simp [ProductHandler.GetByID, hp, writeError_envelope]
  | some id =>
    cases hres : ProductService.GetByID db id with
    | error e =>
      by_cases he : e = .notFound <;>
        simp [ProductHandler.GetByID, hp, hres, he, writeError_envelope]
    | ok q => simp [ProductHandler.GetByID, hp, hres, writeJSON_envelope]

theorem productHandler_update_envelope (db : Store) (r : Request) :
    isEnvelope (ProductHandler.Update db r).1.body := by
  cases hp : parseIDFromPath r.path pProductsSlash with
  | none => simp [ProductHandler.Update, hp, writeError_envelope]
  | some id =>
    cases hb : r.body.bind decodeProduct with
    | none => simp [ProductHandler.Update, hp, hb, writeError_envelope]
    | some p0 =>
      cases hres : (ProductService.Update db { p0 with id := id }).1 with
      | none => simp [ProductHandler.Update, hp, hb, hres, writeJSON_envelope]
      | some e =>
        by_cases h1 : e = .notFound
        · simp [ProductHandler.Update, hp, hb, hres, h1, writeError_envelope]
        · by_cases h2 : e = .categoryNotFound <;>
            simp [ProductHandler.Update, hp, hb, hres, h1, h2, writeError_envelope]

theorem productHandler_delete_envelope (db : Store) (r : Request) :
    isEnvelope (ProductHandler.Delete db r).1.body := by
  cases hp : parseIDFromPath r.path pProductsSlash with
  | none => simp [ProductHandler.Delete, hp, writeError_envelope]
  | some id =>
    cases hres : (ProductService.Delete db id).1 with
    | none => simp [ProductHandler.Delete, hp, hres, writeJSON_envelope]
    | some e =>
      by_cases he : e = .notFound <;>
        simp [ProductHandler.Delete, hp, hres, he, writeError_envelope]

theorem categoryHandler_getAll_envelope (db : Store) :
    isEnvelope (CategoryHandler.GetAll db).1.body := by
  cases h : CategoryService.GetAll db with
  | error e => simp [CategoryHandler.GetAll, h, writeError_envelope]
  | ok res => simp [CategoryHandler.GetAll, h, writeJSON_envelope]

theorem categoryHandler_create_envelope (db : Store) (r : Request) :
    isEnvelope (CategoryHandler.Create db r).1.body := by
  cases hb : r.body.bind decodeCategory with
  | none => simp [CategoryHandler.Create, hb, writeError_envelope]
  | some c0 =>
    cases hres : (CategoryService.Create db c0).1 with
    | none => simp [CategoryHandler.Create, hb, hres, writeJSON_envelope]
    | some e => simp [CategoryHandler.Create, hb, hres, writeError_envelope]

theorem categoryHandler_getByID_envelope (db : Store) (r : Request) :
    isEnvelope (CategoryHandler.GetByID db r).1.body := by
  cases hp : parseIDFromPath r.path pCategoriesSlash with
  | none => simp [CategoryHandler.GetByID, hp, writeError_envelope]
  | some id =>
    cases hres : CategoryService.GetByID db id with
    | error e =>
      by_cases he : e = .notFound <;>
        simp [CategoryHandler.GetByID, hp, hres, he, writeError_envelope]
    | ok c => simp [CategoryHandler.GetByID, hp, hres, writeJSON_envelope]

theorem categoryHandler_update_envelope (db : Store) (r : Request) :
    isEnvelope (CategoryHandler.Update db r).1.body := by
  cases hp : parseIDFromPath r.path pCategoriesSlash with
  | none => simp [CategoryHandler.Update, hp, writeError_envelope]
  | some id =>
    cases hb : r.body.bind decodeCategory with
    | none => simp [CategoryHandler.Update, hp, hb, writeError_envelope]
    | some c0 =>
      cases hres : (CategoryService.Update db { c0 with id := id }).1 with
      | none => simp [CategoryHandler.Update, hp, hb, hres, writeJSON_envelope]
      | some e =>
        by_cases he : e = .notFound <;>
          simp [CategoryHandler.Update, hp, hb, hres, he, writeError_envelope]

theorem categoryHandler_delete_envelope (db : Store) (r : Request) :
    isEnvelope (CategoryHandler.Delete db r).1.body := by
  cases hp : parseIDFromPath r.path pCategoriesSlash with
  | none => simp [CategoryHandler.Delete, hp, writeError_envelope]
  | some id =>
    cases hres : (CategoryService.Delete db id).1 with
    | none => simp [CategoryHandler.Delete, hp, hres, writeJSON_envelope]
    | some e =>
      by_cases he : e = .notFound <;>
        simp [CategoryHandler.Delete, hp, hres, he, writeError_envelope]

theorem health_envelope (db : Store) (r : Request) :
    isEnvelope (HealthHandler.Health db r).1.body := by
  by_cases hm : r.method ≠ mGET
  · simp [HealthHandler.Health, hm, writeError_envelope]
  · cases hf : db.fault with
    | none => simp [HealthHandler.Health, hm, hf, writeJSON_envelope]
    | some s => simp [HealthHandler.Health, hm, hf, writeError_envelope]

theorem handleProducts_envelope (db : Store) (r : Request) :
    isEnvelope (ProductHandler.HandleProducts db r).1.body := by
  unfold ProductHandler.HandleProducts
  by_cases h1 : r.method = mGET
  · rw [if_pos h1]
    exact productHandler_getAll_envelope db
  · rw [if_neg h1]
    by_cases h2 : r.method = mPOST
    · rw [if_pos h2]
      exact productHandler_create_envelope db r
    · rw [if_neg h2]
      exact writeError_envelope _ _

theorem handleProductByID_envelope (db : Store) (r : Request) :
    isEnvelope (ProductHandler.HandleProductByID db r).1.body := by
  unfold ProductHandler.HandleProductByID
  by_cases h1 : r.method = mGET
  · rw [if_pos h1]
    exact productHandler_getByID_envelope db r
  · rw [if_neg h1]
    by_cases h2 : r.method = mPUT
    · rw [if_pos h2]
      exact productHandler_update_envelope db r
    · rw [if_neg h2]
      by_cases h3 : r.method = mDELETE
      · rw [if_pos h3]
        exact productHandler_delete_envelope db r
      · rw [if_neg h3]
        exact writeError_envelope _ _

theorem handleCategories_envelope (db : Store) (r : Request) :
    isEnvelope (CategoryHandler.HandleCategories db r).1.body := by
  unfold CategoryHandler.HandleCategories
  by_cases h1 : r.method = mGET
  · rw [if_pos h1]
    exact categoryHandler_getAll_envelope db
  · rw [if_neg h1]
    by_cases h2 : r.method = mPOST
    · rw [if_pos h2]
      exact categoryHandler_create_envelope db r
    · rw [if_neg h2]
      exact writeError_envelope _ _

theorem handleCategoryByID_envelope (db : Store) (r : Request) :
    isEnvelope (CategoryHandler.HandleCategoryByID db r).1.body := by
  unfold CategoryHandler.HandleCategoryByID
  by_cases h1 : r.method = mGET
  · rw [if_pos h1]
    exact categoryHandler_getByID_envelope db r
  · rw [if_neg h1]
    by_cases h2 : r.method = mPUT
    · rw [if_pos h2]
      exact categoryHandler_update_envelope db r
    · rw [if_neg h2]
      by_cases h3 : r.method = mDELETE
      · rw [if_pos h3]
        exact categoryHandler_delete_envelope db r
      · rw [if_neg h3]
        exact writeError_envelope _ _

theorem envelope_some_inv {X : Response × Store} {resp : Response} {db2 : Store}
    (henv : isEnvelope X.1.body) (h : some X = some (resp, db2)) :
    isEnvelope resp.body := by
  have h2 : X.1 = resp := congrArg Prod.fst (Option.some.inj h)
  exact h2 ▸ henv

/-- Claim C3: every response produced on any application route carries
the uniform envelope: success true with a data payload, or success
false with an error message. -/
theorem response_envelope_uniform :
    ∀ (db : Store) (r : Request) (resp : Response) (db2 : Store),
      route db r = some (resp, db2) → isEnvelope resp.body := by
  intro db r resp db2 h
  unfold route at h
  by_cases h1 : r.path = pHealth
  · rw [if_pos h1] at h
    exact envelope_some_inv (health_envelope db r) h
  · rw [if_neg h1] at h
    by_cases h2 : r.path = pCategories
    · rw [if_pos h2] at h
      exact envelope_some_inv (handleCategories_envelope db r) h
    · rw [if_neg h2] at h
      by_cases h3 : hasPre r.path pCategoriesSlash = true
      · rw [if_pos h3] at h
        exact envelope_some_inv (handleCategoryByID_envelope db r) h
      · rw [if_neg h3] at h
        by_cases h4 : r.path = pProducts
        · rw [if_pos h4] at h
          exact envelope_some_inv (handleProducts_envelope db r) h
        · rw [if_neg h4] at h
          by_cases h5 : hasPre r.path pProductsSlash = true
          · rw [if_pos h5] at h
            exact envelope_some_inv (handleProductByID_envelope db r) h
          · rw [if_neg h5] at h
            exact Option.noConfusion h

/-- Witness for C3: the health route on a reachable store produces the
success envelope. -/
theorem response_envelope_uniform_witness :
    isEnvelope (WriteJSON 200
      (.obj [(kStatus, .str vHealthy), (kDatabase, .str vConnected)])).body :=
  response_envelope_uniform emptyStore reqHealth
    (WriteJSON 200 (.obj [(kStatus, .str vHealthy), (kDatabase, .str vConnected)]))
    emptyStore rfl

/-! ## Claim C10 -/

/-- Claim C10 (counterexample): the decimal string of 2^63 is a valid
signed decimal integer, yet path parsing rejects it and the handler
returns 400; so parsing does not accept every valid signed decimal
integer string, contrary to the claim as stated. -/
theorem atoi_rejects_out_of_range_integer_string :
    isSignedDecimalString hugeIntStr ∧
    parseIDFromPath pProdHuge pProductsSlash = none ∧
    (ProductHandler.HandleProductByID emptyStore reqGetProdHuge).1.status = 400 :=
  ⟨by decide, by decide, by decide⟩

/-- Claim C10 (amended): path parsing accepts exactly the signed decimal
integer strings whose value fits in a 64-bit int — including zero and
negative values — and on a GET item request the 400 BadRequest mapping
arises exactly when the trailing segment is not such a string; when
parsing succeeds the request proceeds to the business layer and the
response is never 400. -/
theorem parse_accepts_in_range_signed_integers :
    ∀ (s : String) (db : Store) (r : Request),
      (isSignedDecimalString s → int64Min ≤ decimalValue s →
        decimalValue s ≤ int64Max → atoi s = some (decimalValue s)) ∧
      (atoi s = none →
        ¬ isSignedDecimalString s ∨ decimalValue s < int64Min ∨
          int64Max < decimalValue s) ∧
      (∀ id, r.method = mGET → parseIDFromPath r.path pProductsSlash = some id →
        (ProductHandler.HandleProductByID db r).1.status ≠ 400) ∧
      (r.method = mGET → parseIDFromPath r.path pProductsSlash = none →
        (ProductHandler.HandleProductByID db r).1.status = 400) := by
  intro s db r
  refine ⟨?_, ?_, ?_, ?_⟩
  · intro hs h1 h2
    obtain ⟨hne, hall⟩ := hs
    have hA : ¬((splitSign s.data).2 = [] ∨ ¬ (splitSign s.data).2.all isDig) := by
      simp [hne, hall]
    have hB : ¬(signedVal (splitSign s.data) < int64Min ∨
        int64Max < signedVal (splitSign s.data)) :=
      not_or.mpr ⟨not_lt.mpr h1, not_lt.mpr h2⟩
    unfold atoi
    rw [if_neg hA, if_neg hB]
    rfl
  · intro h0
    by_cases hA : (splitSign s.data).2 = [] ∨ ¬ (splitSign s.data).2.all isDig
    · exact Or.inl (fun hsd => hA.elim (fun h => hsd.1 h) (fun h => h hsd.2))
    · unfold atoi at h0
      rw [if_neg hA] at h0
      by_cases hB : signedVal (splitSign s.data) < int64Min ∨
          int64Max < signedVal (splitSign s.data)
      · exact Or.inr hB
      · rw [if_neg hB] at h0
        exact absurd h0 (by simp)
  · intro id hm hp
    cases hres : ProductService.GetByID db id with
    | error e =>
      cases e <;>
        simp [ProductHandler.HandleProductByID, ProductHandler.GetByID, hm, hp, hres,
              WriteError, WriteJSON]
    | ok p =>
      simp [ProductHandler.HandleProductByID, ProductHandler.GetByID, hm, hp, hres,
            WriteError, WriteJSON]
  · intro hm hp
    simp [ProductHandler.HandleProductByID, ProductHandler.GetByID, hm, hp, WriteError]

/-- Witness for the amended C10: the segment -5 parses to -5 and reaches
the business layer (response not 400), while a non-integer segment
yields 400. -/
theorem parse_accepts_in_range_signed_integers_witness :
    atoi negFiveStr = some (decimalValue negFiveStr) ∧
    (ProductHandler.HandleProductByID emptyStore reqGetProdNeg5).1.status ≠ 400 ∧
    (ProductHandler.HandleProductByID emptyStore reqGetProdAbc).1.status = 400 :=
  ⟨(parse_accepts_in_range_signed_integers negFiveStr emptyStore reqGetProdNeg5).1
     (by decide) (by decide) (by decide),
   (parse_accepts_in_range_signed_integers negFiveStr emptyStore reqGetProdNeg5).2.2.1
     (-5) rfl (by decide),
   (parse_accepts_in_range_signed_integers negFiveStr emptyStore reqGetProdAbc).2.2.2
     rfl (by decide)⟩

/-! ## Claim C6 -/

/-- Claim C6: on a reachable, well-formed store, a successful Create
followed by GetByID on the assigned identifier returns exactly the
created entity: the input's fields plus a newly assigned positive
identifier; for a product (whose valid input references an existing
category) the fetched entity's embedded snapshot equals the stored
state of the referenced category. -/
theorem create_then_getByID_roundtrip :
    ∀ (db : Store) (cIn : Category) (pIn : Product),
      db.fault = none → db.WF →
      ((CategoryRepository.Create db cIn).1 = none ∧
       0 < (CategoryRepository.Create db cIn).2.2.id ∧
       (CategoryRepository.Create db cIn).2.2.name = cIn.name ∧
       (CategoryRepository.Create db cIn).2.2.description = cIn.description ∧
       CategoryRepository.GetByID (CategoryRepository.Create db cIn).2.1
           (CategoryRepository.Create db cIn).2.2.id =
         .ok (CategoryRepository.Create db cIn).2.2) ∧
      (∀ cat, lookupCategory db pIn.categoryId = some cat →
        (ProductRepository.Create db pIn).1 = none ∧
        0 < (ProductRepository.Create db pIn).2.2.id ∧
        (∃ q, ProductRepository.GetByID (ProductRepository.Create db pIn).2.1
                (ProductRepository.Create db pIn).2.2.id = .ok q ∧
           q.id = (ProductRepository.Create db pIn).2.2.id ∧
           q.name = pIn.name ∧ q.price = pIn.price ∧ q.stock = pIn.stock ∧
           q.categoryId = pIn.categoryId ∧
           q.category =
             lookupCategory (ProductRepository.Create db pIn).2.1 pIn.categoryId ∧
           q.category = some cat)) := by
  intro db cIn pIn hf hWF
  have hcrC : CategoryRepository.Create db cIn =
      (none, catInsertStore db cIn, { cIn with id := db.nextCategoryId }) := by
    unfold CategoryRepository.Create catInsertStore
    rw [hf]
  have hnoneC : db.categories.find? (fun x => x.id == db.nextCategoryId) = none := by
    rw [List.find?_eq_none]
    intro x hx
    have hlt := hWF.2.2.1 x hx
    simp only [beq_iff_eq]
    omega
  have hgetC : CategoryRepository.GetByID (catInsertStore db cIn) db.nextCategoryId =
      .ok { cIn with id := db.nextCategoryId } := by
    have hfc : (catInsertStore db cIn).fault = none := hf
    have hcc : (catInsertStore db cIn).categories =
        db.categories ++ [{ cIn with id := db.nextCategoryId }] := rfl
    simp only [CategoryRepository.GetByID, lookupCategory, hfc, hcc,
               List.find?_append, hnoneC]
    simp [List.find?]
  refine ⟨⟨?_, ?_, ?_, ?_, ?_⟩, ?_⟩
  · rw [hcrC]
  · rw [hcrC]
    exact hWF.1
  · rw [hcrC]
  · rw [hcrC]
  · rw [hcrC]
    exact hgetC
  · intro cat hcat
    have hcrP : ProductRepository.Create db pIn =
        (none, prodInsertStore db pIn, { pIn with id := db.nextProductId }) := by
      unfold ProductRepository.Create prodInsertStore prodRowOf
      rw [hf, hcat]
    have hjoin : ProductRepository.joined (prodInsertStore db pIn) =
        ProductRepository.joined db ++ [joinedRowOf db pIn cat] := by
      unfold ProductRepository.joined
      rw [show (prodInsertStore db pIn).products =
            db.products ++ [prodRowOf db pIn] from rfl]
      rw [List.filterMap_append]
      congr 1
      have hrc : ProductRepository.rowWithCategory (prodInsertStore db pIn)
          (prodRowOf db pIn) = some (joinedRowOf db pIn cat) := by
        unfold ProductRepository.rowWithCategory
        have hl : lookupCategory (prodInsertStore db pIn)
            (prodRowOf db pIn).categoryId = some cat := hcat
        rw [hl]
        rfl
      simp [List.filterMap_cons, hrc]
    have h1 : (ProductRepository.joined db).find?
        (fun q => q.id == db.nextProductId) = none := by
      rw [List.find?_eq_none]
      intro x hx
      rcases List.mem_filterMap.mp hx with ⟨rr, hrr, hmap⟩
      rw [ProductRepository.rowWithCategory] at hmap
      rcases Option.map_eq_some'.mp hmap with ⟨cc2, hcc2, hxe⟩
      have hlt := hWF.2.2.2 rr hrr
      subst hxe
      simp only [beq_iff_eq]
      show ¬ rr.id = db.nextProductId
      omega
    have hfind : (ProductRepository.joined (prodInsertStore db pIn)).find?
        (fun q => q.id == db.nextProductId) = some (joinedRowOf db pIn cat) := by
      rw [hjoin, List.find?_append, h1]
      simp [List.find?, joinedRowOf]
    have hgetP : ProductRepository.GetByID (prodInsertStore db pIn)
        db.nextProductId = .ok (joinedRowOf db pIn cat) := by
      have hfp : (prodInsertStore db pIn).fault = none := hf
      simp only [ProductRepository.GetByID, hfp, hfind]
    refine ⟨?_, ?_, ?_⟩
    · rw [hcrP]
    · rw [hcrP]
      exact hWF.2.1
    · rw [hcrP]
      exact ⟨_, hgetP, rfl, rfl, rfl, rfl, rfl, hcat.symm, rfl⟩

/-- Witness for C6: creating a category in the empty store and a product
in the one-category store, then fetching them back. -/
theorem create_then_getByID_roundtrip_witness :
    ((CategoryRepository.Create emptyStore sampleCat).1 = none ∧
     0 < (CategoryRepository.Create emptyStore sampleCat).2.2.id ∧
     (CategoryRepository.Create emptyStore sampleCat).2.2.name = sampleCat.name ∧
     (CategoryRepository.Create emptyStore sampleCat).2.2.description =
       sampleCat.description ∧
     CategoryRepository.GetByID (CategoryRepository.Create emptyStore sampleCat).2.1
         (CategoryRepository.Create emptyStore sampleCat).2.2.id =
       .ok (CategoryRepository.Create emptyStore sampleCat).2.2) ∧
    ((ProductRepository.Create storeOneCat okProduct).1 = none ∧
     0 < (ProductRepository.Create storeOneCat okProduct).2.2.id ∧
     (∃ q, ProductRepository.GetByID (ProductRepository.Create storeOneCat okProduct).2.1
             (ProductRepository.Create storeOneCat okProduct).2.2.id = .ok q ∧
        q.id = (ProductRepository.Create storeOneCat okProduct).2.2.id ∧
        q.name = okProduct.name ∧ q.price = okProduct.price ∧
        q.stock = okProduct.stock ∧ q.categoryId = okProduct.categoryId ∧
        q.category = lookupCategory (ProductRepository.Create storeOneCat okProduct).2.1
          okProduct.categoryId ∧
        q.category = some sampleCat)) :=
  ⟨(create_then_getByID_roundtrip emptyStore sampleCat okProduct rfl
      ⟨by decide, by decide, by decide, by decide⟩).1,
   (create_then_getByID_roundtrip storeOneCat sampleCat okProduct rfl
      ⟨by decide, by decide, by decide, by decide⟩).2 sampleCat rfl⟩

/-! ## Claim C8 -/

/-- Claim C8: on a PUT item request with a well-formed integer path id
and a decodable body, the id extracted from the path overwrites the
body's id before Update is invoked, so the row updated (and the entity
echoed) is the one named by the path, whatever id the body carried. -/
theorem put_updates_entity_named_by_path :
    ∀ (db : Store) (n : Int),
      (∀ (r : Request) (p : Product),
        db.fault = none → r.method = mPUT →
        parseIDFromPath r.path pProductsSlash = some n →
        r.body.bind decodeProduct = some p →
        (∃ cc, lookupCategory db p.categoryId = some cc) →
        (∃ row ∈ db.products, row.id = n) →
        (ProductHandler.HandleProductByID db r).1.status = 200 ∧
        (ProductHandler.HandleProductByID db r).2.products =
          db.products.map (fun row =>
            if row.id == n then
              { row with name := p.name, price := p.price,
                         stock := p.stock, categoryId := p.categoryId }
            else row) ∧
        (ProductHandler.HandleProductByID db r).2.categories = db.categories ∧
        (ProductHandler.HandleProductByID db r).1.body =
          (WriteJSON 200 (Product.toJson { p with id := n })).body) ∧
      (∀ (r : Request) (c : Category),
        db.fault = none → r.method = mPUT →
        parseIDFromPath r.path pCategoriesSlash = some n →
        r.body.bind decodeCategory = some c →
        (∃ row ∈ db.categories, row.id = n) →
        (CategoryHandler.HandleCategoryByID db r).1.status = 200 ∧
        (CategoryHandler.HandleCategoryByID db r).2.categories =
          db.categories.map (fun row =>
            if row.id == n then
              { row with name := c.name, description := c.description }
            else row) ∧
        (CategoryHandler.HandleCategoryByID db r).2.products = db.products ∧
        (CategoryHandler.HandleCategoryByID db r).1.body =
          (WriteJSON 200 (Category.toJson { c with id := n })).body) := by
  intro db n
  constructor
  · intro r p hf hm hp hb hcat hrow
    obtain ⟨cc, hcc⟩ := hcat
    have hcnt : db.products.countP (fun row => row.id == n) ≠ 0 := by
      intro h0
      exact (countP_zero_iff db.products (fun row => row.id) n).mp h0 hrow
    have h3 : ¬ ∀ a ∈ db.products, ¬ a.id = n := by
      push_neg
      exact hrow
    refine ⟨?_, ?_, ?_, ?_⟩ <;>
      simp [ProductHandler.HandleProductByID, ProductHandler.Update, hm, hp, hb,
            ProductService.Update, CategoryRepository.GetByID,
            ProductRepository.Update, hf, hcc, if_neg hcnt, h3,
            mPUT_ne_mGET, WriteJSON]
  · intro r c hf hm hp hb hrow
    have hcnt : db.categories.countP (fun row => row.id == n) ≠ 0 := by
      intro h0
      exact (countP_zero_iff db.categories (fun row => row.id) n).mp h0 hrow
    have h3 : ¬ ∀ a ∈ db.categories, ¬ a.id = n := by
      push_neg
      exact hrow
    refine ⟨?_, ?_, ?_, ?_⟩ <;>
      simp [CategoryHandler.HandleCategoryByID, CategoryHandler.Update, hm, hp, hb,
            CategoryService.Update, CategoryRepository.Update, hf, if_neg hcnt, h3,
            mPUT_ne_mGET, WriteJSON]

/-- Witness for C8: PUT /api/products/5 with a body claiming id 99
updates row 5 and echoes id 5. -/
theorem put_updates_entity_named_by_path_witness :
    (ProductHandler.HandleProductByID storeCatProd reqPutProd5Id99).1.status = 200 ∧
    (ProductHandler.HandleProductByID storeCatProd reqPutProd5Id99).2.products =
      storeCatProd.products.map (fun row =>
        if row.id == 5 then
          { row with name := putP.name, price := putP.price,
                     stock := putP.stock, categoryId := putP.categoryId }
        else row) ∧
    (ProductHandler.HandleProductByID storeCatProd reqPutProd5Id99).2.categories =
      storeCatProd.categories ∧
    (ProductHandler.HandleProductByID storeCatProd reqPutProd5Id99).1.body =
      (WriteJSON 200 (Product.toJson { putP with id := 5 })).body :=
  (put_updates_entity_named_by_path storeCatProd 5).1 reqPutProd5Id99 putP rfl rfl
    (by decide) (by decide) ⟨sampleCat, rfl⟩ ⟨sampleRow, List.mem_cons_self _ _, rfl⟩

end KasirAPI
